import Mathlib

/-!
Verification development for the featurescripts sync engine.

The Python sources are shallowly embedded:
* `src/integrationPrompts/sync/core/state.py` — `FileState`, `SyncStateData`,
  `ConflictType`, `ConflictInfo`, `SyncState.detect_pull_conflict`,
  `SyncState.detect_push_conflict`;
* `src/sync/core/operations.py` — `SyncOperations._pull_feature_studio`,
  `_push_feature_studio`, `pull_document`, `_pull_document_to_folder`;
* `src/sync/core/references.py` — `ReferenceManager.validate_push_allowed`;
* `src/sync/models/project_config.py` — `FeatureScriptSettings` and the
  add/remove reference/project operations;
* `src/integrationPrompts/sync/models/config.py` — `DocumentMetadata`.

Python dictionaries keyed by strings are modelled as insertion-ordered
association lists (`List (String × α)`): lookup returns the first binding,
assignment replaces an existing binding in place or appends a fresh one at
the end, exactly as a Python `dict` behaves.  SHA-256 hashing is an opaque
parameter `hashf : String → String` (the code only ever compares digests
for equality).  Filesystem paths are either relative-path strings (state
keys) or resolved component lists (for `Path.relative_to` containment).
Timestamps (`datetime.now`) are an explicit clock value `now`.  Network
responses of the Onshape client are explicit inputs.  Side effects of the
engine (fetch, backup copy, file write, state mutation, state save,
metadata write, content submission) are recorded as an event trace.
-/

/-- Lookup in an insertion-ordered dictionary: the value of the first
binding of the key, as Python `dict.get`. -/
def lookupD {α : Type} : List (String × α) → String → Option α
  | [], _ => none
  | e :: rest, k => if e.1 = k then some e.2 else lookupD rest k

/-- Key membership in an insertion-ordered dictionary, as Python `in`. -/
def hasKey {α : Type} : List (String × α) → String → Bool
  | [], _ => false
  | e :: rest, k => if e.1 = k then true else hasKey rest k

/-- Assignment `d[k] = v` on an insertion-ordered dictionary: replace the
existing binding in place, or append a new binding at the end. -/
def setEntry {α : Type} (l : List (String × α)) (k : String) (v : α) :
    List (String × α) :=
  if hasKey l k then l.map (fun e => if e.1 = k then (k, v) else e)
  else l ++ [(k, v)]

theorem lookupD_of_hasKey_false {α : Type} (l : List (String × α)) (k : String)
    (h : hasKey l k = false) : lookupD l k = none := by
  induction l with
  | nil => rfl
  | cons e rest ih =>
    by_cases hk : e.1 = k
    · simp [hasKey, hk] at h
    · simp [lookupD, hasKey, hk] at h ⊢
      exact ih h

theorem lookupD_append_single {α : Type} (l : List (String × α)) (k : String)
    (v : α) (h : hasKey l k = false) : lookupD (l ++ [(k, v)]) k = some v := by
  induction l with
  | nil => simp [lookupD]
  | cons e rest ih =>
    by_cases hk : e.1 = k
    · simp [hasKey, hk] at h
    · simp [hasKey, hk] at h
      simp [lookupD, hk]
      exact ih h

theorem lookupD_map_replace {α : Type} (l : List (String × α)) (k : String)
    (v : α) (h : hasKey l k = true) :
    lookupD (l.map (fun e => if e.1 = k then (k, v) else e)) k = some v := by
  induction l with
  | nil => simp [hasKey] at h
  | cons e rest ih =>
    by_cases hk : e.1 = k
    · simp [lookupD, hk]
    · simp [hasKey, hk] at h
      simp [lookupD, hk]
      exact ih h

/-- After `d[k] = v` the dictionary maps `k` to `v`. -/
theorem lookupD_setEntry_self {α : Type} (l : List (String × α)) (k : String)
    (v : α) : lookupD (setEntry l k v) k = some v := by
  unfold setEntry
  by_cases h : hasKey l k = true
  · simp [h]
    exact lookupD_map_replace l k v h
  · simp at h
    simp [h]
    exact lookupD_append_single l k v h

/-- State information for a single synced file (`FileState` in
`state.py`): all six fields are strings. -/
structure FileState where
  local_hash : String
  remote_microversion : String
  last_sync : String
  element_id : String
  document_id : String
  workspace_id : String
deriving DecidableEq, Repr

/-- The four conflict kinds of `ConflictType` in `state.py`. -/
inductive ConflictType where
  | NONE
  | BOTH_CHANGED
  | LOCAL_DELETED
  | REMOTE_DELETED
deriving DecidableEq, Repr

/-- Information about a detected conflict (`ConflictInfo` in `state.py`). -/
structure ConflictInfo where
  filepath : String
  conflict_type : ConflictType
  local_hash : Option String := none
  previous_hash : Option String := none
  remote_microversion : Option String := none
  previous_microversion : Option String := none
  message : String := ""
deriving DecidableEq, Repr

/-- Branch logic of `SyncState.detect_pull_conflict` after the two lookups
(previous tracked state and current local hash) have been performed.
Mirrors `state.py` lines 189-248 branch for branch, including the message
strings. -/
def detectPullCore (filepath : String) (previous_state : Option FileState)
    (current_hash : Option String) (remote_microversion : String) : ConflictInfo :=
  match previous_state with
  | none =>
      { filepath := filepath, conflict_type := ConflictType.NONE,
        message := "New file, safe to pull" }
  | some prev =>
      let local_changed : Bool := current_hash != some prev.local_hash
      let remote_changed : Bool := remote_microversion != prev.remote_microversion
      match current_hash with
      | none =>
          if remote_changed then
            { filepath := filepath, conflict_type := ConflictType.LOCAL_DELETED,
              previous_hash := some prev.local_hash,
              remote_microversion := some remote_microversion,
              previous_microversion := some prev.remote_microversion,
              message := "Local file deleted but remote has changes" }
          else
            { filepath := filepath, conflict_type := ConflictType.NONE,
              message := "Local deleted, remote unchanged - safe to skip or restore" }
      | some ch =>
          if local_changed && remote_changed then
            { filepath := filepath, conflict_type := ConflictType.BOTH_CHANGED,
              local_hash := some ch, previous_hash := some prev.local_hash,
              remote_microversion := some remote_microversion,
              previous_microversion := some prev.remote_microversion,
              message := "Both local and remote have changes - manual resolution required" }
          else if local_changed then
            { filepath := filepath, conflict_type := ConflictType.NONE,
              local_hash := some ch, previous_hash := some prev.local_hash,
              message := "Warning: Local changes will be overwritten" }
          else
            { filepath := filepath, conflict_type := ConflictType.NONE,
              message := if remote_changed then "Safe to pull" else "Already in sync" }

/-- `SyncState.detect_pull_conflict`: look up the previous tracked state
under the state key and hash the local file (`hash_file` returns `none`
when the file does not exist, i.e. when `localPath` is absent from the
filesystem map), then decide via `detectPullCore`. -/
def detect_pull_conflict (tracked : List (String × FileState))
    (hashf : String → String) (fs : List (String × String))
    (filepath localPath : String) (remote_microversion : String) : ConflictInfo :=
  detectPullCore filepath (lookupD tracked filepath)
    ((lookupD fs localPath).map hashf) remote_microversion

/-- Branch logic of `SyncState.detect_push_conflict` after the tracked-state
lookup (`state.py` lines 268-292). -/
def detectPushCore (filepath : String) (previous_state : Option FileState)
    (remote_microversion : String) : ConflictInfo :=
  match previous_state with
  | none =>
      { filepath := filepath, conflict_type := ConflictType.NONE,
        message := "New file, safe to push" }
  | some prev =>
      if remote_microversion != prev.remote_microversion then
        { filepath := filepath, conflict_type := ConflictType.BOTH_CHANGED,
          remote_microversion := some remote_microversion,
          previous_microversion := some prev.remote_microversion,
          message := "Remote has changed since last sync - use --force to override" }
      else
        { filepath := filepath, conflict_type := ConflictType.NONE,
          message := "Safe to push" }

/-- `SyncState.detect_push_conflict`: decision depends on the tracked state
and the current remote microversion only; no local content is consulted. -/
def detect_push_conflict (tracked : List (String × FileState))
    (filepath : String) (remote_microversion : String) : ConflictInfo :=
  detectPushCore filepath (lookupD tracked filepath) remote_microversion

/-- The pull decision table exactly as the specification words it: no
previous state gives `None`; a deleted local file gives `LocalDeleted`
exactly when the remote version moved; both sides changed gives
`BothChanged`; every other case gives `None`. -/
def pullConflictSpec (previous : Option FileState) (currentHash : Option String)
    (remoteVersion : String) : ConflictType :=
  match previous with
  | none => ConflictType.NONE
  | some prev =>
      match currentHash with
      | none =>
          if remoteVersion ≠ prev.remote_microversion then ConflictType.LOCAL_DELETED
          else ConflictType.NONE
      | some h =>
          if h ≠ prev.local_hash ∧ remoteVersion ≠ prev.remote_microversion then
            ConflictType.BOTH_CHANGED
          else ConflictType.NONE

/-- The specification case in which the pull classification is `None` but
carries the overwrite warning: previous state exists, the local file exists,
only the local hash differs. -/
def pullOverwriteWarnSpec (previous : Option FileState) (currentHash : Option String)
    (remoteVersion : String) : Prop :=
  match previous, currentHash with
  | some prev, some h => h ≠ prev.local_hash ∧ remoteVersion = prev.remote_microversion
  | _, _ => False

/-- The push decision table exactly as the specification words it: no
previous state gives `None`; otherwise `BothChanged` exactly when the
remote version token differs from the tracked one. -/
def pushConflictSpec (previous : Option FileState) (remoteVersion : String) :
    ConflictType :=
  match previous with
  | none => ConflictType.NONE
  | some prev =>
      if remoteVersion ≠ prev.remote_microversion then ConflictType.BOTH_CHANGED
      else ConflictType.NONE

/-- Claim C3: the pull-conflict classification of
`SyncState.detect_pull_conflict` agrees with the specification decision
table on every input, and the result carries the overwrite-warning message
exactly in the only-local-changed case. -/
theorem claim3_pull_conflict_decision_table
    (tracked : List (String × FileState)) (hashf : String → String)
    (fs : List (String × String)) (filepath localPath remote_microversion : String) :
    (detect_pull_conflict tracked hashf fs filepath localPath remote_microversion).conflict_type
        = pullConflictSpec (lookupD tracked filepath)
            ((lookupD fs localPath).map hashf) remote_microversion
    ∧ ((detect_pull_conflict tracked hashf fs filepath localPath remote_microversion).message
          = "Warning: Local changes will be overwritten"
        ↔ pullOverwriteWarnSpec (lookupD tracked filepath)
            ((lookupD fs localPath).map hashf) remote_microversion) := by
  unfold detect_pull_conflict
  rcases lookupD tracked filepath with _ | prev
  · constructor
    · simp [detectPullCore, pullConflictSpec]
    · simp [detectPullCore, pullOverwriteWarnSpec]
  · rcases lookupD fs localPath with _ | c
    · by_cases hr : remote_microversion = prev.remote_microversion
      · constructor
        · simp [detectPullCore, pullConflictSpec, hr]
        · simp [detectPullCore, pullOverwriteWarnSpec, hr]
      · constructor
        · simp [detectPullCore, pullConflictSpec, hr]
        · simp [detectPullCore, pullOverwriteWarnSpec, hr]
    · by_cases hl : hashf c = prev.local_hash
      · by_cases hr : remote_microversion = prev.remote_microversion
        · constructor
          · simp [detectPullCore, pullConflictSpec, hl, hr]
          · simp [detectPullCore, pullOverwriteWarnSpec, hl, hr]
        · constructor
          · simp [detectPullCore, pullConflictSpec, hl, hr]
          · simp [detectPullCore, pullOverwriteWarnSpec, hl, hr]
      · by_cases hr : remote_microversion = prev.remote_microversion
        · constructor
          · simp [detectPullCore, pullConflictSpec, hl, hr]
          · simp [detectPullCore, pullOverwriteWarnSpec, hl, hr]
        · constructor
          · simp [detectPullCore, pullConflictSpec, hl, hr]
          · simp [detectPullCore, pullOverwriteWarnSpec, hl, hr]

/-- Ambient context of `SyncOperations`: the content hash (SHA-256 in the
code, opaque here), the `backup_on_pull` setting, and the current clock
value used for `last_sync` timestamps. -/
structure SyncCtx where
  hashf : String → String
  backup_on_pull : Bool
  now : String

/-- Local world acted on by the engine: the synced file tree (relative
path to content) and the tracked sync state (`SyncStateData.files`). -/
structure World where
  fs : List (String × String)
  tracked : List (String × FileState)
deriving DecidableEq, Repr

/-- Observable side effects of one engine step, in program order: remote
content fetch, remote version lookup, conflict-detector invocation, backup
copy, local file write, tracked-state mutation, state-store save, sidecar
metadata write, remote content submission. -/
inductive SyncEvent where
  | fetch (path : String)
  | fetchVersion (path : String)
  | conflictCheck (info : ConflictInfo)
  | backup (path : String)
  | writeFile (path : String) (content : String)
  | updateState (path : String)
  | saveState
  | writeMetadata (documentId : String)
  | submit (path : String) (content : String)
deriving DecidableEq, Repr

def SyncEvent.isConflictCheck : SyncEvent → Bool
  | SyncEvent.conflictCheck _ => true
  | _ => false

def SyncEvent.isWriteFile : SyncEvent → Bool
  | SyncEvent.writeFile _ _ => true
  | _ => false

def SyncEvent.isBackup : SyncEvent → Bool
  | SyncEvent.backup _ => true
  | _ => false

/-- A local write in the broad sense: backup copy, file write, in-memory
state mutation or state-store save. -/
def SyncEvent.isLocalWrite : SyncEvent → Bool
  | SyncEvent.backup _ => true
  | SyncEvent.writeFile _ _ => true
  | SyncEvent.updateState _ => true
  | SyncEvent.saveState => true
  | _ => false

/-- Result of one sync step (`SyncResult` in `operations.py`). -/
structure SyncResult where
  success : Bool
  filepath : String
  operation : String
  message : String
  conflict : Bool := false
  skipped : Bool := false
deriving DecidableEq, Repr

/-- Transfer part of `SyncOperations._pull_feature_studio` (lines 374-397),
run once the conflict gate has been passed: best-effort backup when the
policy is on and the file exists, write the fetched content, update the
tracked state with the hash of the fetched content and the fetched
microversion, save the state store. -/
def pullTransfer (ctx : SyncCtx)
    (document_id workspace_id element_id relPath : String)
    (remote_contents remote_microversion : String) (w : World)
    (evs : List SyncEvent) : SyncResult × World × List SyncEvent :=
  let backupEvs : List SyncEvent :=
    if ctx.backup_on_pull && hasKey w.fs relPath then [SyncEvent.backup relPath]
    else []
  let fs2 := setEntry w.fs relPath remote_contents
  let tracked2 := setEntry w.tracked relPath
    { local_hash := ctx.hashf remote_contents,
      remote_microversion := remote_microversion,
      last_sync := ctx.now, element_id := element_id,
      document_id := document_id, workspace_id := workspace_id }
  ({ success := true, filepath := relPath, operation := "pull",
     message := "Pulled " ++ relPath },
   { fs := fs2, tracked := tracked2 },
   evs ++ backupEvs
     ++ [SyncEvent.writeFile relPath remote_contents,
         SyncEvent.updateState relPath, SyncEvent.saveState])

/-- `SyncOperations._pull_feature_studio` (operations.py lines 322-405):
fetch the remote content and microversion, run the pull-conflict detector
unless `force` is set, return a failing conflict result on `BOTH_CHANGED`,
otherwise transfer.  The element-name-to-filename sanitisation is
abstracted: `relPath` is both the state key and the file-tree key. -/
def pull_feature_studio (ctx : SyncCtx)
    (document_id workspace_id element_id relPath : String)
    (remote_contents remote_microversion : String) (force : Bool) (w : World) :
    SyncResult × World × List SyncEvent :=
  if force then
    pullTransfer ctx document_id workspace_id element_id relPath
      remote_contents remote_microversion w [SyncEvent.fetch relPath]
  else
    let conflict := detect_pull_conflict w.tracked ctx.hashf w.fs relPath relPath
      remote_microversion
    if conflict.conflict_type = ConflictType.BOTH_CHANGED then
      ({ success := false, filepath := relPath, operation := "pull",
         message := conflict.message, conflict := true },
       w, [SyncEvent.fetch relPath, SyncEvent.conflictCheck conflict])
    else
      pullTransfer ctx document_id workspace_id element_id relPath
        remote_contents remote_microversion w
        [SyncEvent.fetch relPath, SyncEvent.conflictCheck conflict]

/-- Tail of `SyncOperations._push_feature_studio` (lines 562-600) after the
conflict gate: read the local file (a missing file surfaces as the caught
exception branch, a failed result), honour `dry_run`, otherwise submit the
content, store the microversion returned by the submission together with
the hash of the submitted content, and save the state store. -/
def pushTransfer (ctx : SyncCtx)
    (document_id workspace_id element_id relPath : String)
    (submit_microversion : String) (dry_run : Bool) (w : World)
    (evs : List SyncEvent) : SyncResult × World × List SyncEvent :=
  match lookupD w.fs relPath with
  | none =>
      ({ success := false, filepath := relPath, operation := "push",
         message := "Failed: local file not found" }, w, evs)
  | some local_content =>
      if dry_run then
        ({ success := true, filepath := relPath, operation := "push",
           message := "[DRY RUN] Would push " ++ relPath, skipped := true },
         w, evs)
      else
        let tracked2 := setEntry w.tracked relPath
          { local_hash := ctx.hashf local_content,
            remote_microversion := submit_microversion,
            last_sync := ctx.now, element_id := element_id,
            document_id := document_id, workspace_id := workspace_id }
        ({ success := true, filepath := relPath, operation := "push",
           message := "Pushed " ++ relPath },
         { fs := w.fs, tracked := tracked2 },
         evs ++ [SyncEvent.submit relPath local_content,
                 SyncEvent.updateState relPath, SyncEvent.saveState])

/-- `SyncOperations._push_feature_studio` (operations.py lines 519-608):
look up the current remote microversion, run the push-conflict detector
unless `force` is set, return a failing conflict result on `BOTH_CHANGED`,
otherwise read, submit and update state via `pushTransfer`. -/
def push_feature_studio (ctx : SyncCtx)
    (document_id workspace_id element_id relPath : String)
    (current_remote_microversion submit_microversion : String)
    (dry_run force : Bool) (w : World) :
    SyncResult × World × List SyncEvent :=
  if force then
    pushTransfer ctx document_id workspace_id element_id relPath
      submit_microversion dry_run w [SyncEvent.fetchVersion relPath]
  else
    let conflict := detect_push_conflict w.tracked relPath
      current_remote_microversion
    if conflict.conflict_type = ConflictType.BOTH_CHANGED then
      ({ success := false, filepath := relPath, operation := "push",
         message := conflict.message, conflict := true },
       w, [SyncEvent.fetchVersion relPath, SyncEvent.conflictCheck conflict])
    else
      pushTransfer ctx document_id workspace_id element_id relPath
        submit_microversion dry_run w
        [SyncEvent.fetchVersion relPath, SyncEvent.conflictCheck conflict]

/-- Remote store responses consumed by the document-level pulls: content
and microversion per element id. -/
structure Client where
  contents : String → String
  microversion : String → String

/-- `SyncOperations.pull_document` (operations.py lines 614-656), the
legacy document-based pull: iterate the listed elements, skip entries with
an empty id or name, and pull each feature studio.  The `dry_run`
parameter is accepted and, exactly as in the source, never used. -/
def pull_document (ctx : SyncCtx) (client : Client)
    (document_id workspace_id : String) (elements : List (String × String))
    (dry_run force : Bool) (w : World) :
    List SyncResult × World × List SyncEvent :=
  elements.foldl (fun acc e =>
    if e.1 = "" ∨ e.2 = "" then acc
    else
      let r := pull_feature_studio ctx document_id workspace_id e.1 e.2
        (client.contents e.1) (client.microversion e.1) force acc.2.1
      (acc.1 ++ [r.1], r.2.1, acc.2.2 ++ r.2.2)) ([], w, [])

/-- `SyncOperations._pull_document_to_folder` (operations.py lines
219-320), the folder-based per-document pull: report and stop when the
document has no feature studios; under `dry_run` report the intended
actions and perform no fetch, write or state mutation; otherwise pull
every element and re-write the sidecar metadata. -/
def pull_document_to_folder (ctx : SyncCtx) (client : Client)
    (document_id document_name workspace_id : String)
    (elements : List (String × String)) (dry_run force : Bool) (w : World) :
    List SyncResult × World × List SyncEvent :=
  match elements with
  | [] =>
      ([{ success := true, filepath := document_name, operation := "pull",
          message := "No Feature Studios in document", skipped := true }],
       w, [])
  | _ =>
      if dry_run then
        (elements.map (fun e =>
          { success := true, filepath := e.2, operation := "pull",
            message := "[DRY RUN] Would pull " ++ e.2, skipped := true }),
         w, [])
      else
        let folded := elements.foldl (fun acc e =>
          let r := pull_feature_studio ctx document_id workspace_id e.1 e.2
            (client.contents e.1) (client.microversion e.1) force acc.2.1
          (acc.1 ++ [r.1], r.2.1, acc.2.2 ++ r.2.2)) ([], w, [])
        (folded.1, folded.2.1, folded.2.2 ++ [SyncEvent.writeMetadata document_id])

theorem pushTransfer_conflict_false (ctx : SyncCtx)
    (did wsid eid p sub : String) (dr : Bool) (w : World) (evs : List SyncEvent) :
    (pushTransfer ctx did wsid eid p sub dr w evs).1.conflict = false := by
  unfold pushTransfer
  rcases lookupD w.fs p with _ | c
  · rfl
  · by_cases hd : dr = true
    · simp [hd]
    · simp at hd
      simp [hd]

theorem pushTransfer_conflictChecks (ctx : SyncCtx)
    (did wsid eid p sub : String) (dr : Bool) (w : World) (evs : List SyncEvent) :
    (pushTransfer ctx did wsid eid p sub dr w evs).2.2.filter SyncEvent.isConflictCheck
      = evs.filter SyncEvent.isConflictCheck := by
  unfold pushTransfer
  rcases lookupD w.fs p with _ | c
  · rfl
  · by_cases hd : dr = true
    · simp [hd]
    · simp at hd
      simp [hd, List.filter_append, SyncEvent.isConflictCheck]

/-- Claim C4: push-conflict classification depends only on remote-version
equality: `SyncState.detect_push_conflict` agrees with the specification
table (`None` without a previous state, `BothChanged` exactly when the
token moved), and two `_push_feature_studio` runs that differ only in the
local file tree produce the same conflict flag and the same conflict
reports. -/
theorem claim4_push_conflict_remote_only :
    (∀ (tracked : List (String × FileState)) (filepath remote_microversion : String),
        (detect_push_conflict tracked filepath remote_microversion).conflict_type
          = pushConflictSpec (lookupD tracked filepath) remote_microversion)
    ∧ (∀ (ctx : SyncCtx) (did wsid eid p cur sub : String) (dr f : Bool)
          (tr : List (String × FileState)) (fs1 fs2 : List (String × String)),
        (push_feature_studio ctx did wsid eid p cur sub dr f ⟨fs1, tr⟩).1.conflict
          = (push_feature_studio ctx did wsid eid p cur sub dr f ⟨fs2, tr⟩).1.conflict
        ∧ (push_feature_studio ctx did wsid eid p cur sub dr f ⟨fs1, tr⟩).2.2.filter
            SyncEvent.isConflictCheck
          = (push_feature_studio ctx did wsid eid p cur sub dr f ⟨fs2, tr⟩).2.2.filter
            SyncEvent.isConflictCheck) := by
  constructor
  · intro tracked filepath remote_microversion
    unfold detect_push_conflict
    rcases lookupD tracked filepath with _ | prev
    · simp [detectPushCore, pushConflictSpec]
    · by_cases hr : remote_microversion = prev.remote_microversion
      · simp [detectPushCore, pushConflictSpec, hr]
      · simp [detectPushCore, pushConflictSpec, hr]
  · intro ctx did wsid eid p cur sub dr f tr fs1 fs2
    cases f
    · by_cases hc : (detect_push_conflict tr p cur).conflict_type
        = ConflictType.BOTH_CHANGED
      · simp [push_feature_studio, hc]
      · simp [push_feature_studio, hc, pushTransfer_conflict_false,
          pushTransfer_conflictChecks]
    · simp [push_feature_studio, pushTransfer_conflict_false,
        pushTransfer_conflictChecks]

/-- Claim C5 counterexample: a concrete pull with `force=true` on a file
whose local content and remote token have both changed.  The claim asserts
that the `BothChanged` report is still computed and returned for logging,
but the run contains no conflict-detector invocation at all (and the
transfer proceeds). -/
theorem claim5_counterexample :
    ((pull_feature_studio ⟨fun s => s, false, "T2"⟩ "doc1" "ws1" "el1" "a.fs"
        "new content" "v2" true
        ⟨[("a.fs", "edited")],
         [("a.fs", ⟨"orig", "v1", "T1", "el1", "doc1", "ws1"⟩)]⟩).2.2.any
        SyncEvent.isConflictCheck) = false
    ∧ (pull_feature_studio ⟨fun s => s, false, "T2"⟩ "doc1" "ws1" "el1" "a.fs"
        "new content" "v2" true
        ⟨[("a.fs", "edited")],
         [("a.fs", ⟨"orig", "v1", "T1", "el1", "doc1", "ws1"⟩)]⟩).1.success = true := by
  decide

/-- Claim C5 as amended: `force=true` bypasses any `BothChanged` block by
skipping conflict detection entirely — no conflict report is computed or
returned; the pull transfer proceeds unconditionally and the push is never
blocked with a conflict. -/
theorem claim5_amended_force_skips_detection (ctx : SyncCtx)
    (did wsid eid p rc rmv cur sub : String) (dr : Bool) (w : World) :
    ((pull_feature_studio ctx did wsid eid p rc rmv true w).2.2.any
        SyncEvent.isConflictCheck) = false
    ∧ (pull_feature_studio ctx did wsid eid p rc rmv true w).1.success = true
    ∧ ((pull_feature_studio ctx did wsid eid p rc rmv true w).2.2.any
        SyncEvent.isWriteFile) = true
    ∧ ((push_feature_studio ctx did wsid eid p cur sub dr true w).2.2.any
        SyncEvent.isConflictCheck) = false
    ∧ (push_feature_studio ctx did wsid eid p cur sub dr true w).1.conflict = false := by
  refine ⟨?_, ?_, ?_, ?_, ?_⟩
  · cases hb : (ctx.backup_on_pull && hasKey w.fs p) <;>
      simp [pull_feature_studio, pullTransfer, hb, SyncEvent.isConflictCheck]
  · simp [pull_feature_studio, pullTransfer]
  · cases hb : (ctx.backup_on_pull && hasKey w.fs p) <;>
      simp [pull_feature_studio, pullTransfer, hb, SyncEvent.isWriteFile]
  · unfold push_feature_studio pushTransfer
    rcases lookupD w.fs p with _ | c
    · simp [SyncEvent.isConflictCheck]
    · by_cases hd : dr = true
      · simp [hd, SyncEvent.isConflictCheck]
      · simp at hd
        simp [hd, SyncEvent.isConflictCheck]
  · simp [push_feature_studio, pushTransfer_conflict_false]

/-- Claim C2 counterexample: pull a fresh file, then pull it again with
the identical remote content and version token.  The claim asserts the
second pull performs zero local writes and reports the file as skipped,
but the second run writes the file, mutates and saves the tracked state,
and reports `skipped = false`. -/
theorem claim2_counterexample :
    ((pull_feature_studio ⟨fun s => s, true, "T2"⟩ "doc1" "ws1" "el1" "a.fs"
        "body" "v1" false
        (pull_feature_studio ⟨fun s => s, true, "T2"⟩ "doc1" "ws1" "el1" "a.fs"
          "body" "v1" false ⟨[], []⟩).2.1).2.2.any SyncEvent.isLocalWrite) = true
    ∧ (pull_feature_studio ⟨fun s => s, true, "T2"⟩ "doc1" "ws1" "el1" "a.fs"
        "body" "v1" false
        (pull_feature_studio ⟨fun s => s, true, "T2"⟩ "doc1" "ws1" "el1" "a.fs"
          "body" "v1" false ⟨[], []⟩).2.1).1.skipped = false := by
  decide

/-- Claim C2 as amended: when a tracked file is unchanged on both sides
(the local content still hashes to the tracked hash and the remote token
equals the tracked token), a second pull classifies it as `None` with
message `Already in sync` and is not blocked — but it still performs local
writes (backup, file write, state mutation and save) and reports
`success = true, skipped = false`, not a skip.  The pull is idempotent in
effect, not in writes: the file content, the tracked hash and the tracked
version token are left unchanged (only `last_sync` is refreshed). -/
theorem claim2_amended_second_pull_rewrites (ctx : SyncCtx)
    (did wsid eid p c mv : String) (w : World) (st : FileState)
    (hst : lookupD w.tracked p = some st)
    (hfs : lookupD w.fs p = some c)
    (hh : st.local_hash = ctx.hashf c)
    (hmv : st.remote_microversion = mv) :
    (detect_pull_conflict w.tracked ctx.hashf w.fs p p mv).conflict_type = ConflictType.NONE
    ∧ (detect_pull_conflict w.tracked ctx.hashf w.fs p p mv).message = "Already in sync"
    ∧ (pull_feature_studio ctx did wsid eid p c mv false w).1.success = true
    ∧ (pull_feature_studio ctx did wsid eid p c mv false w).1.conflict = false
    ∧ (pull_feature_studio ctx did wsid eid p c mv false w).1.skipped = false
    ∧ ((pull_feature_studio ctx did wsid eid p c mv false w).2.2.any
        SyncEvent.isLocalWrite) = true
    ∧ lookupD (pull_feature_studio ctx did wsid eid p c mv false w).2.1.fs p = some c
    ∧ (lookupD (pull_feature_studio ctx did wsid eid p c mv false w).2.1.tracked p).map
        FileState.local_hash = some st.local_hash
    ∧ (lookupD (pull_feature_studio ctx did wsid eid p c mv false w).2.1.tracked p).map
        FileState.remote_microversion = some st.remote_microversion := by
  have hdet : detect_pull_conflict w.tracked ctx.hashf w.fs p p mv
      = { filepath := p, conflict_type := ConflictType.NONE,
          message := "Already in sync" } := by
    unfold detect_pull_conflict
    rw [hst, hfs]
    simp [detectPullCore, hh, hmv.symm]
  have hpull : pull_feature_studio ctx did wsid eid p c mv false w
      = pullTransfer ctx did wsid eid p c mv w
          [SyncEvent.fetch p,
           SyncEvent.conflictCheck (detect_pull_conflict w.tracked ctx.hashf w.fs p p mv)] := by
    unfold pull_feature_studio
    rw [hdet]
    rfl
  rw [hdet] at hpull ⊢
  rw [hpull]
  refine ⟨rfl, rfl, rfl, rfl, rfl, ?_, ?_, ?_, ?_⟩
  · cases hb : (ctx.backup_on_pull && hasKey w.fs p) <;>
      simp [pullTransfer, hb, SyncEvent.isLocalWrite]
  · simp [pullTransfer, lookupD_setEntry_self]
  · simp [pullTransfer, lookupD_setEntry_self, hh]
  · simp [pullTransfer, lookupD_setEntry_self, hmv]

/-- Claim C2 witness: the amended theorem applied to the concrete
already-in-sync world. -/
theorem claim2_amended_witness :
    (pull_feature_studio ⟨fun s => s, true, "T2"⟩ "doc1" "ws1" "el1" "a.fs"
        "body" "v1" false
        ⟨[("a.fs", "body")],
         [("a.fs", ⟨"body", "v1", "T1", "el1", "doc1", "ws1"⟩)]⟩).1.skipped = false
    ∧ ((pull_feature_studio ⟨fun s => s, true, "T2"⟩ "doc1" "ws1" "el1" "a.fs"
        "body" "v1" false
        ⟨[("a.fs", "body")],
         [("a.fs", ⟨"body", "v1", "T1", "el1", "doc1", "ws1"⟩)]⟩).2.2.any
        SyncEvent.isLocalWrite) = true := by
  have h := claim2_amended_second_pull_rewrites ⟨fun s => s, true, "T2"⟩
    "doc1" "ws1" "el1" "a.fs" "body" "v1"
    ⟨[("a.fs", "body")], [("a.fs", ⟨"body", "v1", "T1", "el1", "doc1", "ws1"⟩)]⟩
    ⟨"body", "v1", "T1", "el1", "doc1", "ws1"⟩ rfl rfl rfl rfl
  exact ⟨h.2.2.2.2.1, h.2.2.2.2.2.1⟩

/-- Claim C6 counterexample: a tracked file whose local copy was deleted
while the remote token moved.  The detector classifies it `LocalDeleted`,
but — contrary to the claim — the pull is not blocked: the outcome has
`conflict = false`, `success = true`, and the file is written. -/
theorem claim6_counterexample :
    (detect_pull_conflict [("a.fs", ⟨"h0", "v0", "T1", "el1", "doc1", "ws1"⟩)]
        (fun s => s) [] "a.fs" "a.fs" "v1").conflict_type = ConflictType.LOCAL_DELETED
    ∧ (pull_feature_studio ⟨fun s => s, true, "T2"⟩ "doc1" "ws1" "el1" "a.fs"
        "restored" "v1" false
        ⟨[], [("a.fs", ⟨"h0", "v0", "T1", "el1", "doc1", "ws1"⟩)]⟩).1.conflict = false
    ∧ (pull_feature_studio ⟨fun s => s, true, "T2"⟩ "doc1" "ws1" "el1" "a.fs"
        "restored" "v1" false
        ⟨[], [("a.fs", ⟨"h0", "v0", "T1", "el1", "doc1", "ws1"⟩)]⟩).1.success = true
    ∧ ((pull_feature_studio ⟨fun s => s, true, "T2"⟩ "doc1" "ws1" "el1" "a.fs"
        "restored" "v1" false
        ⟨[], [("a.fs", ⟨"h0", "v0", "T1", "el1", "doc1", "ws1"⟩)]⟩).2.2.any
        SyncEvent.isWriteFile) = true := by
  decide

/-- Claim C6 as amended: a `LocalDeleted` classification does not block a
pull — the engine gates only on `BothChanged` — so the transfer proceeds:
the outcome reports `success = true, conflict = false`, the remote content
is written back (the file is restored) and the tracked state is updated. -/
theorem claim6_amended_local_deleted_not_blocked (ctx : SyncCtx)
    (did wsid eid p rc rmv : String) (w : World) (st : FileState)
    (hst : lookupD w.tracked p = some st)
    (hfs : lookupD w.fs p = none)
    (hmv : rmv ≠ st.remote_microversion) :
    (detect_pull_conflict w.tracked ctx.hashf w.fs p p rmv).conflict_type
        = ConflictType.LOCAL_DELETED
    ∧ (pull_feature_studio ctx did wsid eid p rc rmv false w).1.success = true
    ∧ (pull_feature_studio ctx did wsid eid p rc rmv false w).1.conflict = false
    ∧ ((pull_feature_studio ctx did wsid eid p rc rmv false w).2.2.any
        SyncEvent.isWriteFile) = true
    ∧ lookupD (pull_feature_studio ctx did wsid eid p rc rmv false w).2.1.fs p
        = some rc := by
  have hdet : (detect_pull_conflict w.tracked ctx.hashf w.fs p p rmv).conflict_type
      = ConflictType.LOCAL_DELETED := by
    unfold detect_pull_conflict
    rw [hst, hfs]
    simp [detectPullCore, hmv]
  have hne : (detect_pull_conflict w.tracked ctx.hashf w.fs p p rmv).conflict_type
      ≠ ConflictType.BOTH_CHANGED := by
    rw [hdet]
    intro hcontra
    exact ConflictType.noConfusion hcontra
  have hpull : pull_feature_studio ctx did wsid eid p rc rmv false w
      = pullTransfer ctx did wsid eid p rc rmv w
          [SyncEvent.fetch p,
           SyncEvent.conflictCheck (detect_pull_conflict w.tracked ctx.hashf w.fs p p rmv)] := by
    unfold pull_feature_studio
    simp [hne]
  rw [hpull]
  refine ⟨hdet, rfl, rfl, ?_, ?_⟩
  · cases hb : (ctx.backup_on_pull && hasKey w.fs p) <;>
      simp [pullTransfer, hb, SyncEvent.isWriteFile]
  · simp [pullTransfer, lookupD_setEntry_self]

/-- Claim C6 witness: the amended theorem applied to the concrete
deleted-locally, moved-remotely world. -/
theorem claim6_amended_witness :
    (pull_feature_studio ⟨fun s => s, true, "T2"⟩ "doc1" "ws1" "el1" "a.fs"
        "restored" "v1" false
        ⟨[], [("a.fs", ⟨"h0", "v0", "T1", "el1", "doc1", "ws1"⟩)]⟩).1.success = true
    ∧ lookupD (pull_feature_studio ⟨fun s => s, true, "T2"⟩ "doc1" "ws1" "el1" "a.fs"
        "restored" "v1" false
        ⟨[], [("a.fs", ⟨"h0", "v0", "T1", "el1", "doc1", "ws1"⟩)]⟩).2.1.fs "a.fs"
        = some "restored" := by
  have h := claim6_amended_local_deleted_not_blocked ⟨fun s => s, true, "T2"⟩
    "doc1" "ws1" "el1" "a.fs" "restored" "v1"
    ⟨[], [("a.fs", ⟨"h0", "v0", "T1", "el1", "doc1", "ws1"⟩)]⟩
    ⟨"h0", "v0", "T1", "el1", "doc1", "ws1"⟩ rfl rfl (by decide)
  exact ⟨h.2.1, h.2.2.2.2⟩

/-- Claim C9: a path with no tracked state is classified `None` with the
message `New file, safe to pull` regardless of what (if anything) is on
disk there, and the pull proceeds and overwrites whatever local content
existed; a backup copy happens exactly when the backup policy is on and a
local file already exists. -/
theorem claim9_untracked_file_overwritten (ctx : SyncCtx)
    (did wsid eid p rc rmv : String) (w : World)
    (hst : lookupD w.tracked p = none) :
    (detect_pull_conflict w.tracked ctx.hashf w.fs p p rmv).conflict_type
        = ConflictType.NONE
    ∧ (detect_pull_conflict w.tracked ctx.hashf w.fs p p rmv).message
        = "New file, safe to pull"
    ∧ (pull_feature_studio ctx did wsid eid p rc rmv false w).1.success = true
    ∧ (pull_feature_studio ctx did wsid eid p rc rmv false w).1.conflict = false
    ∧ lookupD (pull_feature_studio ctx did wsid eid p rc rmv false w).2.1.fs p
        = some rc
    ∧ ((pull_feature_studio ctx did wsid eid p rc rmv false w).2.2.any
        SyncEvent.isBackup) = (ctx.backup_on_pull && hasKey w.fs p) := by
  have hdet : detect_pull_conflict w.tracked ctx.hashf w.fs p p rmv
      = { filepath := p, conflict_type := ConflictType.NONE,
          message := "New file, safe to pull" } := by
    unfold detect_pull_conflict
    rw [hst]
    rfl
  have hpull : pull_feature_studio ctx did wsid eid p rc rmv false w
      = pullTransfer ctx did wsid eid p rc rmv w
          [SyncEvent.fetch p,
           SyncEvent.conflictCheck (detect_pull_conflict w.tracked ctx.hashf w.fs p p rmv)] := by
    unfold pull_feature_studio
    rw [hdet]
    rfl
  rw [hdet] at hpull ⊢
  rw [hpull]
  refine ⟨rfl, rfl, rfl, rfl, ?_, ?_⟩
  · simp [pullTransfer, lookupD_setEntry_self]
  · cases hb : (ctx.backup_on_pull && hasKey w.fs p) <;>
      simp [pullTransfer, hb, SyncEvent.isBackup]

/-- Claim C9 witness: the theorem applied to a world with an untracked but
existing local file whose content differs arbitrarily from the remote. -/
theorem claim9_witness :
    lookupD (⟨[("a.fs", "my private notes")], []⟩ : World).tracked "a.fs" = none
    ∧ lookupD (pull_feature_studio ⟨fun s => s, true, "T2"⟩ "doc1" "ws1" "el1" "a.fs"
        "remote body" "v1" false ⟨[("a.fs", "my private notes")], []⟩).2.1.fs "a.fs"
        = some "remote body"
    ∧ ((pull_feature_studio ⟨fun s => s, true, "T2"⟩ "doc1" "ws1" "el1" "a.fs"
        "remote body" "v1" false ⟨[("a.fs", "my private notes")], []⟩).2.2.any
        SyncEvent.isBackup) = true := by
  have h := claim9_untracked_file_overwritten ⟨fun s => s, true, "T2"⟩
    "doc1" "ws1" "el1" "a.fs" "remote body" "v1"
    ⟨[("a.fs", "my private notes")], []⟩ rfl
  exact ⟨rfl, h.2.2.2.2.1, by rw [h.2.2.2.2.2]; decide⟩

/-- Claim C7: the folder-based pull honours `dry_run` — with `dry_run`
set, `_pull_document_to_folder` leaves the world untouched and emits no
fetch, write or state-mutation event — but the legacy
`SyncOperations.pull_document` accepts `dry_run` and ignores it: a
concrete legacy pull with `dry_run = true` fetches, writes the file and
mutates the tracked state. -/
theorem claim7_legacy_dry_run_ignored :
    (∀ (ctx : SyncCtx) (client : Client) (did dname wsid : String)
        (elements : List (String × String)) (force : Bool) (w : World),
        (pull_document_to_folder ctx client did dname wsid elements true force w).2.1 = w
        ∧ (pull_document_to_folder ctx client did dname wsid elements true force w).2.2 = [])
    ∧ ((pull_document ⟨fun s => s, true, "T0"⟩ ⟨fun _ => "module x;", fun _ => "mv1"⟩
          "doc1" "ws1" [("el1", "Studio1")] true false ⟨[], []⟩).2.2.any
          SyncEvent.isWriteFile) = true
    ∧ hasKey (pull_document ⟨fun s => s, true, "T0"⟩ ⟨fun _ => "module x;", fun _ => "mv1"⟩
          "doc1" "ws1" [("el1", "Studio1")] true false ⟨[], []⟩).2.1.tracked "Studio1"
        = true := by
  refine ⟨?_, by decide, by decide⟩
  intro ctx client did dname wsid elements force w
  rcases elements with _ | ⟨e, es⟩
  · exact ⟨rfl, rfl⟩
  · exact ⟨rfl, rfl⟩

/-- Configuration for a read-only reference library
(`ReferenceConfig` in `project_config.py`). -/
structure ReferenceConfig where
  name : String
  type : String
  url : String
  local_path : String
  read_only : Bool := true
  auto_update : Bool := false
  recursive : Bool := true
  last_sync : Option String := none
  document_id : Option String := none
  workspace_id : Option String := none
  folder_id : Option String := none
deriving DecidableEq, Repr

/-- Configuration for a bidirectional working project
(`ProjectConfig` in `project_config.py`).  The untyped `metadata` dict is
modelled opaquely as string entries. -/
structure ProjectConfig where
  name : String
  description : String
  working_directory : String
  onshape_url : String
  references : List String := []
  last_pull : Option String := none
  last_push : Option String := none
  document_id : Option String := none
  workspace_id : Option String := none
  folder_id : Option String := none
  recursive : Bool := true
  metadata : List (String × String) := []
deriving DecidableEq, Repr

/-- Onshape API configuration (`OnshapeConfig` in `project_config.py`). -/
structure OnshapeConfig where
  base_url : String := "https://k2-sports.onshape.com"
  api_version : String := "v10"
deriving DecidableEq, Repr

/-- Root configuration (`FeatureScriptSettings` in `project_config.py`).
The untyped `sync_metadata` dict is modelled opaquely as string entries. -/
structure FeatureScriptSettings where
  version : String := "1.0"
  onshape : OnshapeConfig := {}
  references : List ReferenceConfig := []
  projects : List ProjectConfig := []
  sync_metadata : List (String × String) := []

/-- `FeatureScriptSettings.get_reference`: first reference with the
given name. -/
def FeatureScriptSettings.get_reference (s : FeatureScriptSettings)
    (name : String) : Option ReferenceConfig :=
  s.references.find? (fun r => r.name == name)

/-- `FeatureScriptSettings.get_project`: first project with the given
name. -/
def FeatureScriptSettings.get_project (s : FeatureScriptSettings)
    (name : String) : Option ProjectConfig :=
  s.projects.find? (fun q => q.name == name)

/-- `FeatureScriptSettings.add_reference`: drop every existing reference
with the same name, then append the new one. -/
def FeatureScriptSettings.add_reference (s : FeatureScriptSettings)
    (ref : ReferenceConfig) : FeatureScriptSettings :=
  { s with references := s.references.filter (fun r => r.name != ref.name) ++ [ref] }

/-- `FeatureScriptSettings.add_project`: drop every existing project with
the same name, then append the new one. -/
def FeatureScriptSettings.add_project (s : FeatureScriptSettings)
    (proj : ProjectConfig) : FeatureScriptSettings :=
  { s with projects := s.projects.filter (fun q => q.name != proj.name) ++ [proj] }

/-- `FeatureScriptSettings.remove_reference`: drop every reference with
the name; the boolean reports whether anything was removed. -/
def FeatureScriptSettings.remove_reference (s : FeatureScriptSettings)
    (name : String) : FeatureScriptSettings × Bool :=
  let kept := s.references.filter (fun r => r.name != name)
  ({ s with references := kept }, decide (kept.length < s.references.length))

/-- `FeatureScriptSettings.remove_project`: drop every project with the
name; the boolean reports whether anything was removed. -/
def FeatureScriptSettings.remove_project (s : FeatureScriptSettings)
    (name : String) : FeatureScriptSettings × Bool :=
  let kept := s.projects.filter (fun q => q.name != name)
  ({ s with projects := kept }, decide (kept.length < s.projects.length))

/-- One mutation of the settings: the four operations of claim C10. -/
inductive SettingsOp where
  | addRef (ref : ReferenceConfig)
  | addProj (proj : ProjectConfig)
  | removeRef (name : String)
  | removeProj (name : String)

def applyOp (s : FeatureScriptSettings) : SettingsOp → FeatureScriptSettings
  | SettingsOp.addRef ref => s.add_reference ref
  | SettingsOp.addProj proj => s.add_project proj
  | SettingsOp.removeRef name => (s.remove_reference name).1
  | SettingsOp.removeProj name => (s.remove_project name).1

def applyOps (s : FeatureScriptSettings) (ops : List SettingsOp) :
    FeatureScriptSettings :=
  ops.foldl applyOp s

/-- Name uniqueness: no two references and no two projects share a name. -/
def namesUnique (s : FeatureScriptSettings) : Prop :=
  (s.references.map ReferenceConfig.name).Nodup
    ∧ (s.projects.map ProjectConfig.name).Nodup

theorem nodup_map_filter_ne {α : Type} (f : α → String) (n : String)
    (l : List α) (h : (l.map f).Nodup) :
    ((l.filter (fun x => f x != n)).map f).Nodup :=
  h.sublist ((l.filter_sublist).map f)

theorem nodup_map_filter_append {α : Type} (f : α → String) (l : List α)
    (r : α) (h : (l.map f).Nodup) :
    (((l.filter (fun x => f x != f r)) ++ [r]).map f).Nodup := by
  rw [List.map_append]
  refine List.Nodup.append (nodup_map_filter_ne f (f r) l h)
    (List.nodup_singleton _) ?_
  intro a ha hb
  rcases List.mem_map.mp ha with ⟨x, hx, hfx⟩
  have hne : f x ≠ f r := by
    have := (List.mem_filter.mp hx).2
    simpa using this
  have heq : a = f r := List.mem_singleton.mp hb
  exact hne (hfx.trans heq)

theorem namesUnique_applyOp (s : FeatureScriptSettings) (op : SettingsOp)
    (h : namesUnique s) : namesUnique (applyOp s op) := by
  rcases h with ⟨hr, hp⟩
  cases op with
  | addRef ref =>
    exact ⟨nodup_map_filter_append ReferenceConfig.name s.references ref hr, hp⟩
  | addProj proj =>
    exact ⟨hr, nodup_map_filter_append ProjectConfig.name s.projects proj hp⟩
  | removeRef name =>
    exact ⟨nodup_map_filter_ne ReferenceConfig.name name s.references hr, hp⟩
  | removeProj name =>
    exact ⟨hr, nodup_map_filter_ne ProjectConfig.name name s.projects hp⟩

theorem namesUnique_applyOps (s : FeatureScriptSettings)
    (ops : List SettingsOp) (h : namesUnique s) :
    namesUnique (applyOps s ops) := by
  induction ops generalizing s with
  | nil => exact h
  | cons op rest ih =>
    exact ih (applyOp s op) (namesUnique_applyOp s op h)

theorem filter_eq_after_replace {α : Type} (f : α → String) (l : List α)
    (r : α) : ((l.filter (fun x => f x != f r)) ++ [r]).filter
      (fun x => f x == f r) = [r] := by
  rw [List.filter_append]
  have h1 : (l.filter (fun x => f x != f r)).filter (fun x => f x == f r) = [] := by
    rw [List.filter_eq_nil_iff]
    intro a ha
    have := (List.mem_filter.mp ha).2
    simpa using this
  rw [h1]
  simp

theorem find?_append_single {α : Type} (p : α → Bool) (l : List α) (r : α)
    (h : ∀ x ∈ l, p x = false) (hr : p r = true) :
    (l ++ [r]).find? p = some r := by
  induction l with
  | nil => simp [List.find?, hr]
  | cons a t ih =>
    have ha := h a (List.mem_cons_self a t)
    rw [List.cons_append, List.find?_cons_of_neg _ (by simp [ha])]
    exact ih (fun x hx => h x (List.mem_cons_of_mem a hx))

theorem find?_after_replace {α : Type} (f : α → String) (l : List α)
    (r : α) : ((l.filter (fun x => f x != f r)) ++ [r]).find?
      (fun x => f x == f r) = some r := by
  refine find?_append_single _ _ _ ?_ (by simp)
  intro x hx
  have := (List.mem_filter.mp hx).2
  simpa using this

/-- Claim C10: starting from the default (empty) settings, any sequence of
`add_reference` / `add_project` / `remove_reference` / `remove_project`
operations leaves at most one reference and at most one project per name;
and adding under an existing name replaces the old entry — afterwards the
entries with that name are exactly the new one, which the name lookup
returns. -/
theorem claim10_name_uniqueness_invariant :
    (∀ ops : List SettingsOp, namesUnique (applyOps {} ops))
    ∧ (∀ (s : FeatureScriptSettings) (ref : ReferenceConfig),
        (s.add_reference ref).references.filter (fun r => r.name == ref.name) = [ref]
        ∧ (s.add_reference ref).get_reference ref.name = some ref)
    ∧ (∀ (s : FeatureScriptSettings) (proj : ProjectConfig),
        (s.add_project proj).projects.filter (fun q => q.name == proj.name) = [proj]
        ∧ (s.add_project proj).get_project proj.name = some proj) := by
  refine ⟨?_, ?_, ?_⟩
  · intro ops
    exact namesUnique_applyOps {} ops ⟨List.nodup_nil, List.nodup_nil⟩
  · intro s ref
    exact ⟨filter_eq_after_replace ReferenceConfig.name s.references ref,
      find?_after_replace ReferenceConfig.name s.references ref⟩
  · intro s proj
    exact ⟨filter_eq_after_replace ProjectConfig.name s.projects proj,
      find?_after_replace ProjectConfig.name s.projects proj⟩

/-- Python exception surfaced by the policy check. -/
inductive PyErr where
  | valueError (msg : String)
deriving DecidableEq, Repr

/-- Body of the `try` block inside
`ReferenceManager.validate_push_allowed` for one reference: paths are
resolved component lists, and `Path.relative_to` succeeds exactly when the
reference root is a componentwise prefix of the target (equality included)
and raises `ValueError` otherwise; on success the code then raises its own
`ValueError` policy error. -/
def validate_try_body (path_obj ref_path : List String) : Except PyErr Unit :=
  if ref_path.isPrefixOf path_obj then
    Except.error (PyErr.valueError
      "Cannot push to reference directory - references are read-only. If you need to modify these files, create a working project instead.")
  else
    Except.error (PyErr.valueError "path is not in the subpath of the reference root")

/-- The `except ValueError: pass` handler wrapped around the body. -/
def except_value_error_pass (r : Except PyErr Unit) : Except PyErr Unit :=
  match r with
  | Except.error (PyErr.valueError _) => Except.ok ()
  | other => other

/-- `ReferenceManager.validate_push_allowed` (references.py lines
372-396): for each configured reference, run the containment `try` block
under the `except ValueError: pass` handler; `resolve` maps a configured
`local_path` to its resolved component list. -/
def validate_push_allowed (refs : List ReferenceConfig)
    (resolve : String → List String) (path_obj : List String) :
    Except PyErr Unit :=
  refs.foldl (fun acc ref =>
    match acc with
    | Except.ok _ =>
        except_value_error_pass (validate_try_body path_obj (resolve ref.local_path))
    | e => e) (Except.ok ())

theorem validate_step_swallows (path_obj ref_path : List String) :
    except_value_error_pass (validate_try_body path_obj ref_path)
      = Except.ok () := by
  unfold validate_try_body except_value_error_pass
  by_cases h : ref_path.isPrefixOf path_obj = true
  · simp [h]
  · simp only [Bool.not_eq_true] at h
    simp [h]

/-- Claim C1: the policy check never raises.  The `raise ValueError`
emitted when the push path is contained in a reference root sits inside
the same `try` block as `Path.relative_to` and is swallowed by the
`except ValueError: pass` handler, so `validate_push_allowed` returns
without error on every input — also when the target is equal to or nested
under a reference root — and `push_working_directory` always proceeds to
the sync engine. -/
theorem claim1_validate_push_allowed_never_raises
    (refs : List ReferenceConfig) (resolve : String → List String)
    (path_obj : List String) :
    validate_push_allowed refs resolve path_obj = Except.ok () := by
  unfold validate_push_allowed
  induction refs with
  | nil => rfl
  | cons r t ih =>
    rw [List.foldl_cons]
    show List.foldl _
      (except_value_error_pass (validate_try_body path_obj (resolve r.local_path))) t
      = Except.ok ()
    rw [validate_step_swallows]
    exact ih

/-- The dictionary produced by `FileState.to_dict`: one optional slot per
key, so that `from_dict` can apply its `data.get(key, "")` defaults. -/
structure FileStateDict where
  local_hash : Option String
  remote_microversion : Option String
  last_sync : Option String
  element_id : Option String
  document_id : Option String
  workspace_id : Option String
deriving DecidableEq, Repr

/-- `FileState.to_dict`: every field is emitted. -/
def FileState.to_dict (s : FileState) : FileStateDict :=
  { local_hash := some s.local_hash,
    remote_microversion := some s.remote_microversion,
    last_sync := some s.last_sync, element_id := some s.element_id,
    document_id := some s.document_id, workspace_id := some s.workspace_id }

/-- `FileState.from_dict`: every field read with `data.get(key, "")`. -/
def FileState.from_dict (d : FileStateDict) : FileState :=
  { local_hash := d.local_hash.getD "",
    remote_microversion := d.remote_microversion.getD "",
    last_sync := d.last_sync.getD "", element_id := d.element_id.getD "",
    document_id := d.document_id.getD "",
    workspace_id := d.workspace_id.getD "" }

/-- Complete sync state (`SyncStateData` in `state.py`). -/
structure SyncStateData where
  version : String := "1.0"
  files : List (String × FileState) := []
deriving DecidableEq, Repr

/-- The dictionary produced by `SyncStateData.to_dict`. -/
structure SyncStateDataDict where
  version : Option String
  files : Option (List (String × FileStateDict))
deriving DecidableEq, Repr

/-- `SyncStateData.to_dict`: version plus the per-file dictionaries. -/
def SyncStateData.to_dict (s : SyncStateData) : SyncStateDataDict :=
  { version := some s.version,
    files := some (s.files.map (fun kv => (kv.1, FileState.to_dict kv.2))) }

/-- `SyncStateData.from_dict`: `data.get("version", "1.0")` and
`data.get("files") or` empty, decoding each entry. -/
def SyncStateData.from_dict (d : SyncStateDataDict) : SyncStateData :=
  { version := d.version.getD "1.0",
    files := (d.files.getD []).map (fun kv => (kv.1, FileState.from_dict kv.2)) }

/-- Sidecar metadata (`DocumentMetadata` in
`integrationPrompts/sync/models/config.py`). -/
structure DocumentMetadata where
  document_id : String
  workspace_id : String
  document_name : String
  folder_path : String
  onshape_url : String
  last_sync : String
  feature_studios : List (String × String) := []
deriving DecidableEq, Repr

/-- The dictionary produced by `DocumentMetadata.to_dict`. -/
structure DocumentMetadataDict where
  document_id : Option String
  workspace_id : Option String
  document_name : Option String
  folder_path : Option String
  onshape_url : Option String
  last_sync : Option String
  feature_studios : Option (List (String × String))
deriving DecidableEq, Repr

/-- `DocumentMetadata.to_dict`: every field is emitted. -/
def DocumentMetadata.to_dict (m : DocumentMetadata) : DocumentMetadataDict :=
  { document_id := some m.document_id, workspace_id := some m.workspace_id,
    document_name := some m.document_name, folder_path := some m.folder_path,
    onshape_url := some m.onshape_url, last_sync := some m.last_sync,
    feature_studios := some m.feature_studios }

/-- `DocumentMetadata.from_dict`: `document_id`, `workspace_id` and
`document_name` are required subscripts (a missing key raises `KeyError`,
surfaced as `none`); the remaining fields use `data.get` defaults. -/
def DocumentMetadata.from_dict (d : DocumentMetadataDict) :
    Option DocumentMetadata :=
  match d.document_id, d.workspace_id, d.document_name with
  | some di, some wi, some dn =>
      some { document_id := di, workspace_id := wi, document_name := dn,
             folder_path := d.folder_path.getD "",
             onshape_url := d.onshape_url.getD "",
             last_sync := d.last_sync.getD "",
             feature_studios := d.feature_studios.getD [] }
  | _, _, _ => none

theorem files_roundtrip (l : List (String × FileState)) :
    (l.map (fun kv => (kv.1, FileState.to_dict kv.2))).map
      (fun kv => (kv.1, FileState.from_dict kv.2)) = l := by
  induction l with
  | nil => rfl
  | cons kv rest ih =>
    simp only [List.map_cons, ih]
    rfl

/-- Claim C8: serialization round trip — for every `FileState`,
`SyncStateData` and `DocumentMetadata` value, decoding the encoded
dictionary reproduces the value exactly, including empty feature-studio
maps and absent optional content. -/
theorem claim8_serialization_round_trip :
    (∀ s : FileState, FileState.from_dict (FileState.to_dict s) = s)
    ∧ (∀ d : SyncStateData, SyncStateData.from_dict (SyncStateData.to_dict d) = d)
    ∧ (∀ m : DocumentMetadata,
        DocumentMetadata.from_dict (DocumentMetadata.to_dict m) = some m) := by
  refine ⟨fun s => rfl, ?_, fun m => rfl⟩
  intro d
  unfold SyncStateData.to_dict SyncStateData.from_dict
  simp only [Option.getD_some, files_roundtrip]
